import Mathlib

/-!
Verification development for the aqueduct client library
(`aqueduct/devices/base/obj.py` and `aqueduct/core/pid.py`).

Python runtime values are embedded as the inductive `PyVal` (floats are
modelled as rationals, which is adequate here: the code only multiplies,
compares with `==`, and tests truthiness).  Python objects whose attributes
are populated dynamically (`Pid`, `Controller`, `ControllerSchedule`) are
modelled as ordered attribute maps (`AttrMap`), mirroring `__dict__`.
-/

/-- Embedded Python runtime values. -/
inductive PyVal where
  | none
  | bool (b : Bool)
  | int (n : Int)
  | float (q : ℚ)
  | str (s : String)
  | tuple (items : List PyVal)
  | list (items : List PyVal)
  | dict (items : List (String × PyVal))

/-- Python exceptions that the modelled code can raise. -/
inductive PyErr where
  | warning (msg : String)
  | indexError
  | attributeError
  | typeError
deriving DecidableEq

/-- Python truthiness (`bool(v)`): `None`, `0`, `0.0`, `""` and empty
containers are falsy. -/
def pyTruthy : PyVal → Bool
  | .none => false
  | .bool b => b
  | .int n => n != 0
  | .float q => q != 0
  | .str s => s != ""
  | .tuple items => !items.isEmpty
  | .list items => !items.isEmpty
  | .dict items => !items.isEmpty

/-- `isinstance(v, float)`; in CPython an `int` or `bool` is not a `float`. -/
def isFloatVal : PyVal → Bool
  | .float _ => true
  | _ => false

/-- `isinstance(v, bool)`. -/
def isBoolVal : PyVal → Bool
  | .bool _ => true
  | _ => false

/-- `isinstance(v, int)`; `bool` is a subclass of `int` in CPython. -/
def isIntVal : PyVal → Bool
  | .int _ => true
  | .bool _ => true
  | _ => false

/-- `isinstance(v, tuple)`. -/
def isTupleVal : PyVal → Bool
  | .tuple _ => true
  | _ => false

/-- `isinstance(v, type(None))`. -/
def isNoneVal : PyVal → Bool
  | .none => true
  | _ => false

/-- `isinstance(v, (float, type(None)))`. -/
def isFloatOrNone (v : PyVal) : Bool := isFloatVal v || isNoneVal v

/-- `isinstance(v, (tuple, type(None)))`. -/
def isTupleOrNone (v : PyVal) : Bool := isTupleVal v || isNoneVal v

/-- An object's `__dict__`: an insertion-ordered attribute map. -/
abbrev AttrMap := List (String × PyVal)

/-- `setattr(obj, k, v)` / `d[k] = v` on an insertion-ordered map: update in
place when the key exists, append otherwise (CPython dict semantics). -/
def setattr : AttrMap → String → PyVal → AttrMap
  | [], k, v => [(k, v)]
  | (k', v') :: rest, k, v =>
      if k' = k then (k, v) :: rest else (k', v') :: setattr rest k v

/-- The shared constructor loop of `Controller.__init__`, `Pid.__init__` and
`ControllerSchedule.__init__` (`aqueduct/core/pid.py`): for each keyword
argument, `setattr` it when its name is in `valid_attributes` and its value
passes the `isinstance` check, else silently skip it. -/
def applyKwargs (valid : String → PyVal → Bool) (m : AttrMap)
    (kwargs : List (String × PyVal)) : AttrMap :=
  kwargs.foldl (fun m kv => if valid kv.1 kv.2 then setattr m kv.1 kv.2 else m) m

theorem lookup_setattr_ne (m : AttrMap) (k k' : String) (v : PyVal)
    (h : k ≠ k') : List.lookup k (setattr m k' v) = List.lookup k m := by
  induction m with
  | nil =>
      simp [setattr, List.lookup, beq_eq_false_iff_ne.mpr h]
  | cons kv rest ih =>
      obtain ⟨k₀, v₀⟩ := kv
      by_cases hk : k₀ = k'
      · subst hk
        simp [setattr, List.lookup, beq_eq_false_iff_ne.mpr h]
      · simp only [setattr, if_neg hk, List.lookup]
        by_cases hkk : (k == k₀)
        · simp [hkk]
        · simp [hkk, ih]

theorem lookup_applyKwargs_of_invalid (valid : String → PyVal → Bool)
    (m : AttrMap) (kwargs : List (String × PyVal)) (k : String)
    (h : ∀ v, (k, v) ∈ kwargs → valid k v = false) :
    List.lookup k (applyKwargs valid m kwargs) = List.lookup k m := by
  induction kwargs generalizing m with
  | nil => rfl
  | cons kv rest ih =>
      obtain ⟨k₁, v₁⟩ := kv
      have hrest : ∀ v, (k, v) ∈ rest → valid k v = false := by
        intro v hv; exact h v (List.mem_cons_of_mem _ hv)
      simp only [applyKwargs, List.foldl_cons]
      by_cases hval : valid k₁ v₁ = true
      · by_cases hk : k = k₁
        · subst hk
          have := h v₁ (List.mem_cons_self _ _)
          rw [this] at hval; cases hval
        · rw [hval, if_pos rfl]
          have := ih (setattr m k₁ v₁) hrest
          simpa [applyKwargs, lookup_setattr_ne m k k₁ v₁ hk] using this
      · rw [eq_false_of_ne_true hval]
        simpa [applyKwargs] using ih m hrest

theorem applyKwargs_filter (valid : String → PyVal → Bool) (m : AttrMap)
    (kwargs : List (String × PyVal)) :
    applyKwargs valid m kwargs
      = applyKwargs valid m (kwargs.filter fun kv => valid kv.1 kv.2) := by
  induction kwargs generalizing m with
  | nil => rfl
  | cons kv rest ih =>
      obtain ⟨k₁, v₁⟩ := kv
      by_cases hval : valid k₁ v₁ = true
      · simp [applyKwargs, List.filter, hval] at ih ⊢
        exact ih (setattr m k₁ v₁)
      · have hval' : valid k₁ v₁ = false := eq_false_of_ne_true hval
        simp [applyKwargs, List.filter, hval'] at ih ⊢
        exact ih m

/-! ## Device.set_command (`aqueduct/devices/base/obj.py`) -/

/-- CPython list item assignment `xs[index] = v` for `int` indices:
`0 ≤ index < len` writes in place, `-len ≤ index < 0` writes counting from
the end, anything else raises `IndexError`. -/
def pyListSet {α : Type} (xs : List α) (index : Int) (v : α) :
    Except PyErr (List α) :=
  if 0 ≤ index ∧ index < (xs.length : Int) then
    .ok (xs.set index.toNat v)
  else if -(xs.length : Int) ≤ index ∧ index < 0 then
    .ok (xs.set ((xs.length : Int) + index).toNat v)
  else
    .error .indexError

/-- `Device.set_command(commands, index, command)`: raise a `Warning` when
`index < len(commands)` fails, otherwise perform `commands[index] = command`
with CPython assignment semantics. -/
def Device.set_command {α : Type} (commands : List (Option α)) (index : Int)
    (command : α) : Except PyErr (List (Option α)) :=
  if index < (commands.length : Int) then
    pyListSet commands index (some command)
  else
    .error (.warning "SetCommand error: command index larger than device size!")

/-- C1 counterexample: on a one-channel device, `set_command` at index `-1`
(which is outside `0 ≤ i < L`) does not raise — it silently writes the last
slot, because the code only checks `index < len(commands)`. -/
theorem c1_set_command_counterexample :
    Device.set_command ([Option.none] : List (Option Nat)) (-1) 7
        = .ok [some 7]
      ∧ ¬ (0 ≤ (-1 : Int)) := by
  exact ⟨rfl, by decide⟩

/-- C1 amended: `set_command` succeeds iff `-L ≤ index < L`; a non-negative
in-range index writes slot `index`, a negative in-range index writes slot
`L + index`; `index ≥ L` raises the bounds `Warning` and `index < -L` raises
`IndexError` (in both failure cases the array is left unmodified, as no
updated array is produced). -/
theorem c1_set_command_amended {α : Type} (commands : List (Option α))
    (index : Int) (command : α) :
    (0 ≤ index → index < (commands.length : Int) →
        Device.set_command commands index command
          = .ok (commands.set index.toNat (some command)))
    ∧ (-(commands.length : Int) ≤ index → index < 0 →
        Device.set_command commands index command
          = .ok (commands.set ((commands.length : Int) + index).toNat
              (some command)))
    ∧ ((commands.length : Int) ≤ index →
        Device.set_command commands index command
          = .error (.warning
              "SetCommand error: command index larger than device size!"))
    ∧ (index < -(commands.length : Int) →
        Device.set_command commands index command = .error .indexError) := by
  refine ⟨?_, ?_, ?_, ?_⟩
  · intro h0 hlt
    simp [Device.set_command, pyListSet, hlt, h0]
  · intro hge hneg
    have hlt : index < (commands.length : Int) := by omega
    have hnot : ¬ (0 ≤ index ∧ index < (commands.length : Int)) := by omega
    simp only [Device.set_command, if_pos hlt, pyListSet, if_neg hnot]
    rw [if_pos ⟨hge, hneg⟩]
  · intro hge
    have : ¬ index < (commands.length : Int) := by omega
    simp [Device.set_command, this]
  · intro hlt
    have h1 : index < (commands.length : Int) := by
      have : (0 : Int) ≤ commands.length := Int.ofNat_nonneg _
      omega
    have hnot : ¬ (0 ≤ index ∧ index < (commands.length : Int)) := by omega
    have hnot' : ¬ (-(commands.length : Int) ≤ index ∧ index < 0) := by omega
    simp only [Device.set_command, if_pos h1, pyListSet, if_neg hnot,
      if_neg hnot']

/-- C1 amended, instantiated: writing slot 1 of a two-channel command array
succeeds and writes exactly that slot. -/
theorem c1_set_command_witness :
    Device.set_command ([Option.none, Option.none] : List (Option Nat)) 1 5
      = .ok [Option.none, some 5] := by
  have h := (c1_set_command_amended
      ([Option.none, Option.none] : List (Option Nat)) 1 5).1
      (by decide) (by decide)
  simpa using h

/-! ## Device identity and the get/get_live receive loop -/

/-- The `Device` attributes used by the modelled operations
(`aqueduct/devices/base/obj.py`): identity `(device_id, user_id)`, channel
count `len`, the `has_sim_values` flag and the display name. -/
structure Device where
  device_id : Int
  user_id : String
  len : Nat
  has_sim_values : Bool
  name : String

/-- Python `d.get(k) == i` where `i` is an `int`: a missing key gives `None`,
which compares unequal to every number; numeric values compare by value
(`bool` counts as `0`/`1`). -/
def pyGetEqInt (m : AttrMap) (k : String) (i : Int) : Bool :=
  match List.lookup k m with
  | some (.int n) => n == i
  | some (.bool b) => (if b then (1 : Int) else 0) == i
  | some (.float q) => q == (i : ℚ)
  | _ => false

/-- Python `d.get(k) == s` where `s` is a `str`. -/
def pyGetEqStr (m : AttrMap) (k : String) (s : String) : Bool :=
  match List.lookup k m with
  | some (.str t) => t == s
  | _ => false

/-- `Device.is_for_me(base)`: the reply's embedded `device_id` and `user_id`
both equal this device's. -/
def Device.is_for_me (dev : Device) (base : AttrMap) : Bool :=
  pyGetEqInt base "device_id" dev.device_id
    && pyGetEqStr base "user_id" dev.user_id

/-- One iteration's outcome of the `get()` / `get_live()` receive loop, as
seen after the `try` block: either an exception (`json.decoder.JSONDecodeError`
or `socket.timeout`), or a decoded reply carrying its event tag, the mapping
the identity check reads (`data["base"]` for `get`, the whole decoded dict for
`get_live`) and the value the method would return on acceptance. -/
inductive RxAttempt where
  | fail
  | reply (event : Int) (base : AttrMap) (data : PyVal)

/-- Result of running the receive loop against a finite trace of attempt
outcomes. -/
inductive RxResult where
  | accepted (data : PyVal)
  | exhausted
  | waiting (i : Nat)

/-- The shared send/receive loop of `Device.get` and `Device.get_live`
(`aqueduct/devices/base/obj.py`, both methods have the identical control
structure): `i = 0; while i < budget:` — an exception in the `try` block runs
`continue`, which skips `i += 1`; a decoded reply with the expected event tag
whose identity matches is returned; any other decoded reply falls through to
`i += 1`.  `RxResult.waiting i` means the trace ended with the loop still
running (counter at `i`); `RxResult.exhausted` is the loop guard failing,
after which the method returns `None`. -/
def rxLoop (dev : Device) (expected : Int) (budget : Nat) :
    List RxAttempt → Nat → RxResult
  | trace, i =>
    if budget ≤ i then .exhausted
    else
      match trace with
      | [] => .waiting i
      | .fail :: rest => rxLoop dev expected budget rest i
      | .reply ev base data :: rest =>
          if ev = expected then
            if dev.is_for_me base then .accepted data
            else rxLoop dev expected budget rest (i + 1)
          else rxLoop dev expected budget rest (i + 1)

/-- C2: the retry loop of `get()`/`get_live()` is not bounded by the attempt
budget.  A decode failure or read timeout runs `continue`, skipping `i += 1`,
so a run of `n` consecutive failing attempts consumes no budget at all: for
every `n`, after `n` failing attempts the loop is still running with its
counter at 0 — it performs arbitrarily many attempts and never returns
`None`, contradicting the claimed `SOCKET_TX_ATTEMPTS` bound (the bound does
hold for decoded-but-rejected replies, which do reach `i += 1`). -/
theorem c2_rx_retry_unbounded (dev : Device) (expected : Int)
    (budget n : Nat) (rest : List RxAttempt) :
    rxLoop dev expected (budget + 1) (List.replicate n .fail ++ rest) 0
        = rxLoop dev expected (budget + 1) rest 0
      ∧ rxLoop dev expected (budget + 1) (List.replicate n .fail) 0
        = .waiting 0 := by
  constructor
  · induction n with
    | zero => rfl
    | succ k ih =>
        rw [List.replicate_succ, List.cons_append]
        rw [show rxLoop dev expected (budget + 1)
              (.fail :: (List.replicate k .fail ++ rest)) 0
            = rxLoop dev expected (budget + 1)
              (List.replicate k .fail ++ rest) 0 from by
          rw [rxLoop.eq_def]; simp]
        exact ih
  · induction n with
    | zero => rw [rxLoop.eq_def]; simp
    | succ k ih =>
        rw [List.replicate_succ]
        rw [show rxLoop dev expected (budget + 1)
              (.fail :: List.replicate k .fail) 0
            = rxLoop dev expected (budget + 1) (List.replicate k .fail) 0 from by
          rw [rxLoop.eq_def]; simp]
        exact ih

/-- C5: the loop returns a snapshot only when some decoded reply in the trace
carried the expected event, that very data, and an embedded identity matching
this device (first conjunct); and a decoded reply addressed to another
device/owner is not returned — the loop continues with one unit of the same
attempt budget consumed (second conjunct). -/
theorem c5_identity_validated :
    (∀ (dev : Device) (expected : Int) (budget : Nat)
        (trace : List RxAttempt) (i : Nat) (d : PyVal),
        rxLoop dev expected budget trace i = .accepted d →
        ∃ base, RxAttempt.reply expected base d ∈ trace
          ∧ dev.is_for_me base = true)
    ∧ (∀ (dev : Device) (expected : Int) (budget : Nat) (base : AttrMap)
        (data : PyVal) (rest : List RxAttempt) (i : Nat),
        dev.is_for_me base = false → i < budget →
        rxLoop dev expected budget (.reply expected base data :: rest) i
          = rxLoop dev expected budget rest (i + 1)) := by
  constructor
  · intro dev expected budget trace
    induction trace with
    | nil =>
        intro i d h
        rw [rxLoop.eq_def] at h
        by_cases hb : budget ≤ i <;> simp [hb] at h
    | cons a rest ih =>
        intro i d h
        rw [rxLoop.eq_def] at h
        by_cases hb : budget ≤ i
        · simp [hb] at h
        · simp only [if_neg hb] at h
          match a with
          | .fail =>
              obtain ⟨base, hmem, hme⟩ := ih i d h
              exact ⟨base, List.mem_cons_of_mem _ hmem, hme⟩
          | .reply ev base data =>
              by_cases hev : ev = expected
              · subst hev
                by_cases hme : dev.is_for_me base
                · simp only [if_pos rfl, if_pos hme] at h
                  cases h
                  exact ⟨base, List.mem_cons_self _ _, hme⟩
                · simp only [if_pos rfl, if_neg hme] at h
                  obtain ⟨b, hmem, hb'⟩ := ih (i + 1) d h
                  exact ⟨b, List.mem_cons_of_mem _ hmem, hb'⟩
              · simp only [if_neg hev] at h
                obtain ⟨b, hmem, hb'⟩ := ih (i + 1) d h
                exact ⟨b, List.mem_cons_of_mem _ hmem, hb'⟩
  · intro dev expected budget base data rest i hme hi
    rw [rxLoop.eq_def]
    simp [Nat.not_le.mpr hi, hme]

/-- C5 instantiated: a concrete run where the only reply is addressed to this
device is accepted, and it indeed carries a matching identity; a reply for a
different device makes the loop continue with the counter advanced. -/
theorem c5_identity_validated_witness :
    (∃ base,
        RxAttempt.reply 3 base (PyVal.int 42)
            ∈ [RxAttempt.reply 3 [("device_id", PyVal.int 1),
                ("user_id", PyVal.str "u")] (PyVal.int 42)]
          ∧ Device.is_for_me ⟨1, "u", 2, false, "probe"⟩ base = true)
    ∧ rxLoop ⟨1, "u", 2, false, "probe"⟩ 3 5
        [RxAttempt.reply 3 [("device_id", PyVal.int 9),
          ("user_id", PyVal.str "u")] (PyVal.int 7)] 0
      = rxLoop ⟨1, "u", 2, false, "probe"⟩ 3 5 [] 1 := by
  constructor
  · exact c5_identity_validated.1 ⟨1, "u", 2, false, "probe"⟩ 3 5
      [RxAttempt.reply 3 [("device_id", PyVal.int 1),
        ("user_id", PyVal.str "u")] (PyVal.int 42)] 0 (PyVal.int 42) rfl
  · exact c5_identity_validated.2 ⟨1, "u", 2, false, "probe"⟩ 3 5
      [("device_id", PyVal.int 9), ("user_id", PyVal.str "u")]
      (PyVal.int 7) [] 0 rfl (by decide)

/-! ## Simulation injection (`Device._set_sim_data` and wrappers) -/

/-- One transmitted component of a channel triple, as built by
`Device._set_sim_data`: the Python conditional expression
`arr[i] * scale if arr and i < len(arr) and arr[i] is not None else None`
(`arr` is falsy when it is `None` or an empty list/tuple). -/
def simEntry (arr : Option (List (Option ℚ))) (i : Nat) (scale : ℚ) :
    Option ℚ :=
  match arr with
  | Option.none => Option.none
  | some xs =>
      if xs.isEmpty then Option.none
      else if h : i < xs.length then
        match xs.get ⟨i, h⟩ with
        | some x => some (x * scale)
        | Option.none => Option.none
      else Option.none

/-- The claim's reading of a transmitted entry: a per-channel `None` or
missing input entry is transmitted as null, a present entry `x` as
`x * scale`. -/
def simEntrySpec (arr : Option (List (Option ℚ))) (i : Nat) (scale : ℚ) :
    Option ℚ :=
  match arr with
  | Option.none => Option.none
  | some xs =>
      match xs[i]? with
      | some (some x) => some (x * scale)
      | _ => Option.none

theorem simEntry_eq_spec (arr : Option (List (Option ℚ))) (i : Nat)
    (scale : ℚ) : simEntry arr i scale = simEntrySpec arr i scale := by
  match arr with
  | Option.none => rfl
  | some xs =>
      simp only [simEntry, simEntrySpec]
      by_cases hemp : xs.isEmpty
      · have : xs = [] := List.isEmpty_iff.mp hemp
        subst this
        simp
      · rw [if_neg hemp]
        by_cases h : i < xs.length
        · rw [dif_pos h, List.getElem?_eq_getElem h]
          cases hx : xs[i] <;> simp [List.get_eq_getElem, hx]
        · rw [dif_neg h, List.getElem?_eq_none (Nat.le_of_not_lt h)]

/-- `Device._set_sim_data(values, roc, noise, scale)`: when the device has
simulated values, build one `(value, roc, noise)` triple per channel
`0 .. len-1` and hand it to `send_command`; otherwise raise a `Warning`
before any payload is built or sent.  The `.ok` value is exactly the payload
that would be transmitted; `.error` means the call raised and nothing was
sent. -/
def Device._set_sim_data (dev : Device)
    (values roc noise : Option (List (Option ℚ))) (scale : ℚ) :
    Except PyErr (List (Option ℚ × Option ℚ × Option ℚ)) :=
  if dev.has_sim_values then
    .ok ((List.range dev.len).map fun i =>
      (simEntry values i scale, simEntry roc i scale, simEntry noise i scale))
  else
    .error (.warning (dev.name ++ " does not have simulated values."))

/-- `Device._set_sim_values(values, scale)`. -/
def Device._set_sim_values (dev : Device) (values : Option (List (Option ℚ)))
    (scale : ℚ) : Except PyErr (List (Option ℚ × Option ℚ × Option ℚ)) :=
  Device._set_sim_data dev values Option.none Option.none scale

/-- `Device._set_sim_rates_of_change(roc, scale)`. -/
def Device._set_sim_rates_of_change (dev : Device)
    (roc : Option (List (Option ℚ))) (scale : ℚ) :
    Except PyErr (List (Option ℚ × Option ℚ × Option ℚ)) :=
  Device._set_sim_data dev Option.none roc Option.none scale

/-- `Device._set_sim_noise(noise, scale)`. -/
def Device._set_sim_noise (dev : Device) (noise : Option (List (Option ℚ)))
    (scale : ℚ) : Except PyErr (List (Option ℚ × Option ℚ × Option ℚ)) :=
  Device._set_sim_data dev Option.none Option.none noise scale

/-- C6: every simulation-injection entry point on a device whose
`has_sim_values` flag is false raises a `Warning` and produces no payload to
transmit. -/
theorem c6_sim_requires_support (dev : Device)
    (values roc noise : Option (List (Option ℚ))) (scale : ℚ)
    (h : dev.has_sim_values = false) :
    Device._set_sim_data dev values roc noise scale
        = .error (.warning (dev.name ++ " does not have simulated values."))
      ∧ Device._set_sim_values dev values scale
        = .error (.warning (dev.name ++ " does not have simulated values."))
      ∧ Device._set_sim_rates_of_change dev roc scale
        = .error (.warning (dev.name ++ " does not have simulated values."))
      ∧ Device._set_sim_noise dev noise scale
        = .error (.warning (dev.name ++ " does not have simulated values.")) := by
  refine ⟨?_, ?_, ?_, ?_⟩ <;>
    simp [Device._set_sim_data, Device._set_sim_values,
      Device._set_sim_rates_of_change, Device._set_sim_noise, h]

/-- C6 instantiated on a concrete two-channel device without simulation
support. -/
theorem c6_sim_requires_support_witness :
    Device._set_sim_data ⟨1, "u", 2, false, "pump"⟩
        (some [some 1, Option.none]) Option.none Option.none 1
      = .error (.warning "pump does not have simulated values.") := by
  exact (c6_sim_requires_support ⟨1, "u", 2, false, "pump"⟩
    (some [some 1, Option.none]) Option.none Option.none 1 rfl).1

/-- C7: on a device with simulation support, the transmitted payload has
exactly `len` (channel count) entries; entry `i` is the triple of the three
per-channel inputs at `i`, where a `None` or missing input entry is
transmitted as null and a present entry `x` as `x * scale`. -/
theorem c7_sim_payload (dev : Device)
    (values roc noise : Option (List (Option ℚ))) (scale : ℚ)
    (h : dev.has_sim_values = true) :
    ∃ p, Device._set_sim_data dev values roc noise scale = .ok p
      ∧ p.length = dev.len
      ∧ ∀ i, i < dev.len →
          p[i]? = some (simEntrySpec values i scale,
            simEntrySpec roc i scale, simEntrySpec noise i scale) := by
  refine ⟨(List.range dev.len).map fun i =>
    (simEntry values i scale, simEntry roc i scale, simEntry noise i scale),
    ?_, ?_, ?_⟩
  · simp [Device._set_sim_data, h]
  · simp
  · intro i hi
    rw [List.getElem?_map, List.getElem?_range hi]
    simp [simEntry_eq_spec]

/-- C7 instantiated: two channels, `values = [3, None]`, `roc` absent,
`noise = []` (falsy empty list), `scale = 2` — entry 0 transmits `3 × 2`,
entry 1 transmits nulls. -/
theorem c7_sim_payload_witness :
    ∃ p, Device._set_sim_data ⟨1, "u", 2, true, "pump"⟩
          (some [some 3, Option.none]) Option.none (some []) 2 = .ok p
      ∧ p.length = 2
      ∧ ∀ i, i < 2 →
          p[i]? = some (simEntrySpec (some [some 3, Option.none]) i 2,
            simEntrySpec Option.none i 2, simEntrySpec (some []) i 2) := by
  exact c7_sim_payload ⟨1, "u", 2, true, "pump"⟩
    (some [some 3, Option.none]) Option.none (some []) 2 rfl

/-! ## PID parameter model (`aqueduct/core/pid.py`) -/

/-- `Controller.__init__`'s `valid_attributes` table: name plus `isinstance`
check. -/
def Controller.valid_attributes (k : String) (v : PyVal) : Bool :=
  if k = "bias" then isFloatVal v
  else if k = "kp" then isFloatVal v
  else if k = "ki" then isFloatVal v
  else if k = "kd" then isFloatVal v
  else if k = "linearity" then isFloatVal v
  else if k = "beta" then isFloatVal v
  else if k = "setpoint_range" then isFloatVal v
  else if k = "p_limit" then isFloatOrNone v
  else if k = "i_limit" then isFloatOrNone v
  else if k = "d_limit" then isFloatOrNone v
  else if k = "delta_limit" then isFloatOrNone v
  else if k = "integral_valid" then isFloatOrNone v
  else if k = "dead_zone" then isFloatOrNone v
  else false

/-- `Controller._init_defaults`: the attribute map after the default
initializer. -/
def Controller._init_defaults : AttrMap :=
  [("bias", .float 0), ("kp", .float 0), ("ki", .float 0), ("kd", .float 0),
   ("linearity", .float 1), ("beta", .float 1), ("setpoint_range", .float 1),
   ("p_limit", .none), ("i_limit", .none), ("d_limit", .none),
   ("delta_limit", .none), ("integral_valid", .none), ("dead_zone", .none)]

/-- `Controller.__init__(**kwargs)`. -/
def Controller.init (kwargs : List (String × PyVal)) : AttrMap :=
  applyKwargs Controller.valid_attributes Controller._init_defaults kwargs

/-- The pair-field rendering of `Controller.serialize`:
`[self.x, None] if self.x else [None, True]` — note the truthiness test. -/
def limitEntry (v : PyVal) : PyVal :=
  if pyTruthy v then .list [v, PyVal.none] else .list [PyVal.none, .bool true]

/-- `Controller.serialize` (attribute reads rendered total via
`getD PyVal.none`; after `_init_defaults` every key is present). -/
def Controller.serialize (m : AttrMap) : List (String × PyVal) :=
  let g := fun k => (List.lookup k m).getD PyVal.none
  [("bias", g "bias"), ("kp", g "kp"), ("ki", g "ki"), ("kd", g "kd"),
   ("linearity", g "linearity"), ("beta", g "beta"),
   ("setpoint_range", g "setpoint_range"),
   ("p_limit", limitEntry (g "p_limit")),
   ("i_limit", limitEntry (g "i_limit")),
   ("d_limit", limitEntry (g "d_limit")),
   ("delta_limit", limitEntry (g "delta_limit")),
   ("integral_valid", limitEntry (g "integral_valid")),
   ("dead_zone", limitEntry (g "dead_zone"))]

/-- `ControllerSchedule.__init__`'s `valid_attributes` table. -/
def ControllerSchedule.valid_attributes (k : String) (v : PyVal) : Bool :=
  if k = "process" then isTupleOrNone v
  else if k = "error" then isTupleOrNone v
  else if k = "control" then isTupleOrNone v
  else false

/-- `ControllerSchedule._init_defaults`. -/
def ControllerSchedule._init_defaults : AttrMap :=
  [("process", .none), ("error", .none), ("control", .none)]

/-- `ControllerSchedule.__init__(**kwargs)`. -/
def ControllerSchedule.init (kwargs : List (String × PyVal)) : AttrMap :=
  applyKwargs ControllerSchedule.valid_attributes
    ControllerSchedule._init_defaults kwargs

/-- `ControllerSchedule.serialize`: returns `self.__dict__`. -/
def ControllerSchedule.serialize (m : AttrMap) : List (String × PyVal) := m

/-- CPython `{**a, **b}`: keys of `a` in insertion order (values overridden
by `b` where present), then the keys of `b` not in `a`. -/
def dictMerge (a b : List (String × PyVal)) : List (String × PyVal) :=
  (a.map fun kv =>
    match List.lookup kv.1 b with
    | some v => (kv.1, v)
    | Option.none => kv)
  ++ b.filter fun kv => (List.lookup kv.1 a).isNone

/-- `Schedule.serialize`: `{**self.schedule.serialize(),
**self.controller.serialize()}`, on a Schedule object encoded as a dict with
`controller` and `schedule` attributes (non-dict input is unreachable in the
source, which would have raised `AttributeError`). -/
def Schedule.serializeVal (v : PyVal) : PyVal :=
  match v with
  | .dict attrs =>
      let contr := match List.lookup "controller" attrs with
        | some (.dict c) => c
        | _ => []
      let sched := match List.lookup "schedule" attrs with
        | some (.dict s) => s
        | _ => []
      .dict (dictMerge (ControllerSchedule.serialize sched)
        (Controller.serialize contr))
  | _ => .none

/-- `Pid.__init__`'s `valid_attributes` table: note that `schedule` is not in
it, and `output_limits` only accepts a `tuple`. -/
def Pid.valid_attributes (k : String) (v : PyVal) : Bool :=
  if k = "enabled" then isBoolVal v
  else if k = "update_interval_ms" then isIntVal v
  else if k = "setpoint" then isFloatVal v
  else if k = "integral_term" then isFloatVal v
  else if k = "output_limits" then isTupleVal v
  else false

/-- `Pid._init_defaults`. -/
def Pid._init_defaults : AttrMap :=
  [("enabled", .bool false), ("update_interval_ms", .int 1000),
   ("setpoint", .float 0), ("integral_term", .float 0),
   ("schedule", .list []), ("output_limits", .tuple [.none, .none])]

/-- `Pid.__init__(setpoint, update_interval_ms=1000, **kwargs)`: defaults,
then the two parameters are assigned unconditionally, then the kwargs loop
filters by `valid_attributes`. -/
def Pid.init (setpoint update_interval_ms : PyVal)
    (kwargs : List (String × PyVal)) : AttrMap :=
  applyKwargs Pid.valid_attributes
    (setattr (setattr Pid._init_defaults "setpoint" setpoint)
      "update_interval_ms" update_interval_ms)
    kwargs

/-- `Pid(**d)` for a dict `d` (the construction `PidController._update` uses
on the server reply): `setpoint` must be present (else the call raises
`TypeError`, rendered as `Option.none`), `update_interval_ms` defaults to
1000, every other key goes through the kwargs filter. -/
def Pid.initFromDict (d : List (String × PyVal)) : Option AttrMap :=
  match List.lookup "setpoint" d with
  | Option.none => Option.none
  | some sp =>
      some (Pid.init sp
        ((List.lookup "update_interval_ms" d).getD (.int 1000))
        (d.filter fun kv =>
          kv.1 != "setpoint" && kv.1 != "update_interval_ms"))

/-- `Pid.serialize`: the `schedule` list is serialized element-wise and
`output_limits` is rendered with `list(...)` (so a tuple becomes a list).
Attribute reads are rendered total; in the source `self.schedule` is always a
list and `self.output_limits` a tuple or list. -/
def Pid.serialize (m : AttrMap) : List (String × PyVal) :=
  let g := fun k => (List.lookup k m).getD PyVal.none
  [("enabled", g "enabled"),
   ("update_interval_ms", g "update_interval_ms"),
   ("setpoint", g "setpoint"),
   ("integral_term", g "integral_term"),
   ("schedule", PyVal.list ((match g "schedule" with
      | .list ss => ss
      | _ => []).map Schedule.serializeVal)),
   ("output_limits", PyVal.list (match g "output_limits" with
      | .tuple os => os
      | .list os => os
      | _ => []))]

/-- `PidController.change_parameters(kp, ki, kd, bias)` before its `_update`
call: plain attribute assignment on the local `pid` object for each provided
argument (no `valid_attributes` filtering here). -/
def PidController.change_parameters (pid : AttrMap)
    (kp ki kd bias : Option PyVal) : AttrMap :=
  let m1 := match kp with
    | some v => setattr pid "kp" v
    | Option.none => pid
  let m2 := match ki with
    | some v => setattr m1 "ki" v
    | Option.none => m1
  let m3 := match kd with
    | some v => setattr m2 "kd" v
    | Option.none => m2
  match bias with
  | some v => setattr m3 "bias" v
  | Option.none => m3

/-- What `Aqueduct.send_and_wait_for_rx` handed back to
`PidController._update`: nothing (`None`), a string that fails JSON decoding,
or a fully decoded value (the `while isinstance(response, str)` loop has
already run). -/
inductive TransportReply where
  | absent
  | undecodable
  | decoded (v : PyVal)

/-- Outcome of `PidController._update`'s reply-handling block: the
controller's `pid` afterwards, whether `warnings.warn` ran, and the exception
that escaped, if any. -/
structure UpdateResult where
  pid : AttrMap
  warned : Bool
  exc : Option PyErr

/-- The reply handling of `PidController._update` (after the transport call):
`try:` decode loop, `response.get("controllers", {})`,
`controllers.get(str(self._id))`, truthiness-guarded `Pid(**updated_pid)`
replacement — `except json.decoder.JSONDecodeError:` warn.  A `None` or
non-dict decoded reply hits `.get` on a non-dict and raises
`AttributeError`, which the `except` clause does not catch; a truthy
non-dict `pid` entry or a `pid` dict without `setpoint` raises `TypeError`
inside `Pid(**...)`, likewise uncaught. -/
def PidController.handle_update_reply (pid : AttrMap) (cid : Int)
    (r : TransportReply) : UpdateResult :=
  match r with
  | .absent => ⟨pid, false, some .attributeError⟩
  | .undecodable => ⟨pid, true, Option.none⟩
  | .decoded v =>
      match v with
      | .dict d =>
          match (List.lookup "controllers" d).getD (.dict []) with
          | .dict cs =>
              match List.lookup (toString cid) cs with
              | Option.none => ⟨pid, false, Option.none⟩
              | some ucv =>
                  if pyTruthy ucv then
                    match ucv with
                    | .dict ucd =>
                        let updated_pid :=
                          (List.lookup "pid" ucd).getD PyVal.none
                        if pyTruthy updated_pid then
                          match updated_pid with
                          | .dict pd =>
                              match Pid.initFromDict pd with
                              | some p' => ⟨p', false, Option.none⟩
                              | Option.none => ⟨pid, false, some .typeError⟩
                          | _ => ⟨pid, false, some .typeError⟩
                        else ⟨pid, false, Option.none⟩
                    | _ => ⟨pid, false, some .attributeError⟩
                  else ⟨pid, false, Option.none⟩
          | _ => ⟨pid, false, some .attributeError⟩
      | _ => ⟨pid, false, some .attributeError⟩

theorem lookup_cons_ne {β : Type} (k a : String) (v : β) (l : List (String × β))
    (h : ¬ k = a) : List.lookup k ((a, v) :: l) = List.lookup k l := by
  simp [List.lookup, beq_eq_false_iff_ne.mpr h]

theorem lookup_applyKwargs_of_skipped (valid : String → PyVal → Bool)
    (m : AttrMap) (kwargs : List (String × PyVal)) (k : String)
    (h : ∀ kv ∈ kwargs, kv.1 = k → valid kv.1 kv.2 = false) :
    List.lookup k (applyKwargs valid m kwargs) = List.lookup k m := by
  induction kwargs generalizing m with
  | nil => rfl
  | cons kv rest ih =>
      obtain ⟨k₁, v₁⟩ := kv
      have hrest : ∀ kv ∈ rest, kv.1 = k → valid kv.1 kv.2 = false := by
        intro kv hkv; exact h kv (List.mem_cons_of_mem _ hkv)
      simp only [applyKwargs, List.foldl_cons]
      by_cases hval : valid k₁ v₁ = true
      · by_cases hk : k₁ = k
        · have := h (k₁, v₁) (List.mem_cons_self _ _) hk
          rw [this] at hval; cases hval
        · rw [hval, if_pos rfl]
          have := ih (setattr m k₁ v₁) hrest
          simpa [applyKwargs,
            lookup_setattr_ne m k k₁ v₁ (fun hh => hk hh.symm)] using this
      · rw [eq_false_of_ne_true hval]
        simpa [applyKwargs] using ih m hrest

/-- The attribute names `Controller` declares (keys of `valid_attributes`
and of `_init_defaults`). -/
def controllerAttrNames : List String :=
  ["bias", "kp", "ki", "kd", "linearity", "beta", "setpoint_range",
   "p_limit", "i_limit", "d_limit", "delta_limit", "integral_valid",
   "dead_zone"]

/-- The attribute names `ControllerSchedule` declares. -/
def scheduleAttrNames : List String := ["process", "error", "control"]

/-- The attribute names `Pid` declares. -/
def pidAttrNames : List String :=
  ["enabled", "update_interval_ms", "setpoint", "integral_term",
   "schedule", "output_limits"]

/-- C9: in each of the three constructors, a keyword argument whose name is
not in the entity's `valid_attributes` table or whose value fails the
`isinstance` check is silently dropped — filtering such arguments out of the
kwargs leaves the constructed object unchanged (first conjunct of each
block); a name all of whose given bindings are invalid keeps its default
(second); and a name outside the declared attribute set is simply absent
from the constructed object (third). -/
theorem c9_invalid_kwargs_dropped :
    ((∀ kwargs, Controller.init kwargs
        = Controller.init (kwargs.filter fun kv =>
            Controller.valid_attributes kv.1 kv.2))
      ∧ (∀ kwargs (k : String),
          (∀ v, (k, v) ∈ kwargs → Controller.valid_attributes k v = false) →
          List.lookup k (Controller.init kwargs)
            = List.lookup k Controller._init_defaults)
      ∧ (∀ kwargs (k : String), k ∉ controllerAttrNames →
          List.lookup k (Controller.init kwargs) = Option.none))
    ∧ ((∀ kwargs, ControllerSchedule.init kwargs
        = ControllerSchedule.init (kwargs.filter fun kv =>
            ControllerSchedule.valid_attributes kv.1 kv.2))
      ∧ (∀ kwargs (k : String),
          (∀ v, (k, v) ∈ kwargs →
            ControllerSchedule.valid_attributes k v = false) →
          List.lookup k (ControllerSchedule.init kwargs)
            = List.lookup k ControllerSchedule._init_defaults)
      ∧ (∀ kwargs (k : String), k ∉ scheduleAttrNames →
          List.lookup k (ControllerSchedule.init kwargs) = Option.none))
    ∧ ((∀ sp uims kwargs, Pid.init sp uims kwargs
        = Pid.init sp uims (kwargs.filter fun kv =>
            Pid.valid_attributes kv.1 kv.2))
      ∧ (∀ sp uims kwargs (k : String),
          (∀ v, (k, v) ∈ kwargs → Pid.valid_attributes k v = false) →
          List.lookup k (Pid.init sp uims kwargs)
            = List.lookup k (Pid.init sp uims []))
      ∧ (∀ sp uims kwargs (k : String), k ∉ pidAttrNames →
          List.lookup k (Pid.init sp uims kwargs) = Option.none)) := by
  refine ⟨⟨?_, ?_, ?_⟩, ⟨?_, ?_, ?_⟩, ⟨?_, ?_, ?_⟩⟩
  · intro kwargs
    exact applyKwargs_filter _ _ kwargs
  · intro kwargs k h
    exact lookup_applyKwargs_of_invalid _ _ _ _ h
  · intro kwargs k hk
    simp only [controllerAttrNames, List.mem_cons, List.mem_singleton,
      List.not_mem_nil] at hk
    push_neg at hk
    obtain ⟨h1, h2, h3, h4, h5, h6, h7, h8, h9, h10, h11, h12, h13⟩ := by
      simpa using hk
    have hv : ∀ v, Controller.valid_attributes k v = false := by
      intro v
      simp [Controller.valid_attributes, h1, h2, h3, h4, h5, h6, h7, h8, h9,
        h10, h11, h12, h13]
    rw [show Controller.init kwargs
        = applyKwargs Controller.valid_attributes Controller._init_defaults
            kwargs from rfl]
    rw [lookup_applyKwargs_of_invalid _ _ _ _ (fun v _ => hv v)]
    rw [Controller._init_defaults]
    rw [lookup_cons_ne _ _ _ _ h1, lookup_cons_ne _ _ _ _ h2,
      lookup_cons_ne _ _ _ _ h3, lookup_cons_ne _ _ _ _ h4,
      lookup_cons_ne _ _ _ _ h5, lookup_cons_ne _ _ _ _ h6,
      lookup_cons_ne _ _ _ _ h7, lookup_cons_ne _ _ _ _ h8,
      lookup_cons_ne _ _ _ _ h9, lookup_cons_ne _ _ _ _ h10,
      lookup_cons_ne _ _ _ _ h11, lookup_cons_ne _ _ _ _ h12,
      lookup_cons_ne _ _ _ _ h13]
    rfl
  · intro kwargs
    exact applyKwargs_filter _ _ kwargs
  · intro kwargs k h
    exact lookup_applyKwargs_of_invalid _ _ _ _ h
  · intro kwargs k hk
    simp only [scheduleAttrNames, List.mem_cons, List.mem_singleton,
      List.not_mem_nil] at hk
    push_neg at hk
    obtain ⟨h1, h2, h3⟩ := by simpa using hk
    have hv : ∀ v, ControllerSchedule.valid_attributes k v = false := by
      intro v
      simp [ControllerSchedule.valid_attributes, h1, h2, h3]
    rw [show ControllerSchedule.init kwargs
        = applyKwargs ControllerSchedule.valid_attributes
            ControllerSchedule._init_defaults kwargs from rfl]
    rw [lookup_applyKwargs_of_invalid _ _ _ _ (fun v _ => hv v)]
    rw [ControllerSchedule._init_defaults]
    rw [lookup_cons_ne _ _ _ _ h1, lookup_cons_ne _ _ _ _ h2,
      lookup_cons_ne _ _ _ _ h3]
    rfl
  · intro sp uims kwargs
    exact applyKwargs_filter _ _ kwargs
  · intro sp uims kwargs k h
    exact lookup_applyKwargs_of_invalid _ _ _ _ h
  · intro sp uims kwargs k hk
    simp only [pidAttrNames, List.mem_cons, List.mem_singleton,
      List.not_mem_nil] at hk
    push_neg at hk
    obtain ⟨h1, h2, h3, h4, h5, h6⟩ := by simpa using hk
    have hv : ∀ v, Pid.valid_attributes k v = false := by
      intro v
      simp [Pid.valid_attributes, h1, h2, h3, h4, h6]
    rw [show Pid.init sp uims kwargs
        = applyKwargs Pid.valid_attributes
            (setattr (setattr Pid._init_defaults "setpoint" sp)
              "update_interval_ms" uims) kwargs from rfl]
    rw [lookup_applyKwargs_of_invalid _ _ _ _ (fun v _ => hv v)]
    rw [lookup_setattr_ne _ _ _ _ h2, lookup_setattr_ne _ _ _ _ h3]
    rw [Pid._init_defaults]
    rw [lookup_cons_ne _ _ _ _ h1, lookup_cons_ne _ _ _ _ h2,
      lookup_cons_ne _ _ _ _ h3, lookup_cons_ne _ _ _ _ h4,
      lookup_cons_ne _ _ _ _ h5, lookup_cons_ne _ _ _ _ h6]
    rfl

/-- C9 instantiated: a wrong-typed gain keeps its default, an unknown keyword
never becomes an attribute (the `test_invalid_values` scenario of the repo's
own test file), and the same for the Pid constructor. -/
theorem c9_invalid_kwargs_dropped_witness :
    List.lookup "kp" (Controller.init [("kp", PyVal.str "x")])
        = List.lookup "kp" Controller._init_defaults
      ∧ List.lookup "invalid_attribute"
          (Pid.init (PyVal.float 100) (PyVal.int 1000)
            [("invalid_attribute", PyVal.float 5)]) = Option.none := by
  constructor
  · refine c9_invalid_kwargs_dropped.1.2.1 [("kp", PyVal.str "x")] "kp" ?_
    intro v hv
    simp only [List.mem_singleton, Prod.mk.injEq, true_and] at hv
    subst hv
    rfl
  · exact c9_invalid_kwargs_dropped.2.2.2.2 (PyVal.float 100) (PyVal.int 1000)
      [("invalid_attribute", PyVal.float 5)] "invalid_attribute" (by decide)

/-- C10: reconstructing any Pid from its own serialization — exactly what
`PidController._update` does with a server echo of the serialized state —
always resets `schedule` to the empty list and `output_limits` to
`(None, None)`: `serialize` emits `schedule` (a key not in
`valid_attributes`) and `output_limits` as a JSON list (not a tuple), so the
constructor drops both and their defaults survive.  Serialization followed
by construction is therefore not a round-trip identity whenever the original
schedule or output limits differ from those defaults. -/
theorem c10_serialize_reconstruct_resets (m : AttrMap) :
    ∃ m', Pid.initFromDict (Pid.serialize m) = some m'
      ∧ List.lookup "schedule" m' = some (PyVal.list [])
      ∧ List.lookup "output_limits" m'
          = some (PyVal.tuple [PyVal.none, PyVal.none]) := by
  refine ⟨_, rfl, ?_, ?_⟩
  · rw [show ∀ sp uims kw, Pid.init sp uims kw
        = applyKwargs Pid.valid_attributes
            (setattr (setattr Pid._init_defaults "setpoint" sp)
              "update_interval_ms" uims) kw from fun _ _ _ => rfl]
    rw [lookup_applyKwargs_of_invalid _ _ _ _ (fun v _ => rfl)]
    rw [lookup_setattr_ne _ _ _ _ (by decide),
      lookup_setattr_ne _ _ _ _ (by decide)]
    rfl
  · rw [show ∀ sp uims kw, Pid.init sp uims kw
        = applyKwargs Pid.valid_attributes
            (setattr (setattr Pid._init_defaults "setpoint" sp)
              "update_interval_ms" uims) kw from fun _ _ _ => rfl]
    rw [lookup_applyKwargs_of_skipped _ _ _ _ ?_]
    · rw [lookup_setattr_ne _ _ _ _ (by decide),
        lookup_setattr_ne _ _ _ _ (by decide)]
      rfl
    · intro kv hkv hk
      have hkv' := List.mem_of_mem_filter hkv
      simp only [Pid.serialize, List.mem_cons, List.not_mem_nil,
        or_false] at hkv'
      rcases hkv' with rfl | rfl | rfl | rfl | rfl | rfl
      · simp at hk
      · simp at hk
      · simp at hk
      · simp at hk
      · simp at hk
      · rfl

/-- The optional pair fields of `Controller.serialize`. -/
def limitFieldNames : List String :=
  ["p_limit", "i_limit", "d_limit", "delta_limit", "integral_valid",
   "dead_zone"]

theorem lookup_controller_serialize_limit (m : AttrMap) (k : String)
    (hk : k ∈ limitFieldNames) :
    List.lookup k (Controller.serialize m)
      = some (limitEntry ((List.lookup k m).getD PyVal.none)) := by
  simp only [limitFieldNames, List.mem_cons, List.mem_singleton,
    List.not_mem_nil, or_false] at hk
  rcases hk with rfl | rfl | rfl | rfl | rfl | rfl <;> rfl

/-- C8 counterexample: a Controller whose `p_limit` was set to the non-None
value `0.0` serializes that field as the unbounded marker `[null, true]` —
the truthiness test `if self.p_limit` confuses `0.0` with `None` — instead
of preserving the value as `[0.0, null]`. -/
theorem c8_zero_limit_counterexample :
    List.lookup "p_limit"
        (Controller.serialize (Controller.init [("p_limit", PyVal.float 0)]))
        = some (PyVal.list [PyVal.none, PyVal.bool true])
      ∧ PyVal.list [PyVal.none, PyVal.bool true]
        ≠ PyVal.list [PyVal.float 0, PyVal.none] := by
  refine ⟨rfl, ?_⟩
  intro h
  injection h with h1
  injection h1 with h2
  exact PyVal.noConfusion h2

/-- C8 amended: every optional pair field of `Controller.serialize` is
emitted as a two-element array; `None` is emitted as the unbounded marker
`[null, true]` and a non-None, non-zero limit `q` is preserved as
`[q, null]` — but a limit equal to `0.0` is also emitted as the unbounded
marker, because the source guards on the field's truthiness rather than on
`is not None`.  `Pid.serialize`'s `output_limits` pair, by contrast, is
emitted with `list(...)` and preserves both entries exactly (including
`None` and `0.0`). -/
theorem c8_pair_fields_amended :
    (∀ (m : AttrMap) (k : String), k ∈ limitFieldNames →
      (∀ q : ℚ, q ≠ 0 → List.lookup k m = some (PyVal.float q) →
          List.lookup k (Controller.serialize m)
            = some (PyVal.list [PyVal.float q, PyVal.none]))
      ∧ (List.lookup k m = some PyVal.none →
          List.lookup k (Controller.serialize m)
            = some (PyVal.list [PyVal.none, PyVal.bool true]))
      ∧ (List.lookup k m = some (PyVal.float 0) →
          List.lookup k (Controller.serialize m)
            = some (PyVal.list [PyVal.none, PyVal.bool true])))
    ∧ (∀ (m : AttrMap) (os : List PyVal),
        List.lookup "output_limits" m = some (PyVal.tuple os) →
        List.lookup "output_limits" (Pid.serialize m)
          = some (PyVal.list os)) := by
  constructor
  · intro m k hk
    refine ⟨?_, ?_, ?_⟩
    · intro q hq hlook
      rw [lookup_controller_serialize_limit m k hk, hlook]
      simp only [Option.getD_some, limitEntry, pyTruthy]
      rw [if_pos (by simpa [bne_iff_ne] using hq)]
    · intro hlook
      rw [lookup_controller_serialize_limit m k hk, hlook]
      rfl
    · intro hlook
      rw [lookup_controller_serialize_limit m k hk, hlook]
      rfl
  · intro m os hlook
    rw [show List.lookup "output_limits" (Pid.serialize m)
        = some (PyVal.list
            (match (List.lookup "output_limits" m).getD PyVal.none with
             | .tuple os => os
             | .list os => os
             | _ => [])) from rfl]
    rw [hlook]
    rfl

/-- C8 amended, instantiated: a `p_limit` of `5.0` is preserved as
`[5.0, null]`, and a Pid `output_limits` tuple `(None, 2.0)` is emitted as
the list `[None, 2.0]`. -/
theorem c8_pair_fields_amended_witness :
    List.lookup "p_limit"
        (Controller.serialize [("p_limit", PyVal.float 5)])
        = some (PyVal.list [PyVal.float 5, PyVal.none])
      ∧ List.lookup "output_limits"
          (Pid.serialize [("output_limits",
            PyVal.tuple [PyVal.none, PyVal.float 2])])
        = some (PyVal.list [PyVal.none, PyVal.float 2]) := by
  constructor
  · exact (c8_pair_fields_amended.1 [("p_limit", PyVal.float 5)] "p_limit"
      (by decide)).1 5 (by norm_num) rfl
  · exact c8_pair_fields_amended.2
      [("output_limits", PyVal.tuple [PyVal.none, PyVal.float 2])]
      [PyVal.none, PyVal.float 2] rfl

/-! ## PidController._update reply handling: C3 and C4 -/

/-- C3 counterexample: when the transport returned `None` (e.g. all attempts
exhausted), the reply handling of `_update` raises `AttributeError`
(`None.get("controllers", {})`), which the `except json.decoder.JSONDecodeError`
clause does not catch — an exception escapes and no warning is emitted,
contradicting the claim that an absent reply only produces a non-fatal
warning. -/
theorem c3_absent_reply_counterexample :
    (PidController.handle_update_reply [("setpoint", PyVal.float 0)] 1
        TransportReply.absent).exc = some PyErr.attributeError
      ∧ (PidController.handle_update_reply [("setpoint", PyVal.float 0)] 1
        TransportReply.absent).warned = false := by
  exact ⟨rfl, rfl⟩

/-- C3 amended: on a malformed reply — a string that fails JSON decoding —
the local `pid` is left unchanged and only a non-fatal warning is emitted,
with no exception; but on an absent reply (`None` from the transport) an
uncaught `AttributeError` escapes to the caller (the local `pid` object is
still unchanged, since the failure happens before any assignment). -/
theorem c3_reply_handling_amended (pid : AttrMap) (cid : Int) :
    PidController.handle_update_reply pid cid TransportReply.undecodable
        = ⟨pid, true, Option.none⟩
      ∧ PidController.handle_update_reply pid cid TransportReply.absent
        = ⟨pid, false, some PyErr.attributeError⟩ := by
  exact ⟨rfl, rfl⟩

/-- C4: evaluation of the spec's end-to-end scenario.  After
`change_parameters(kd=10)` then `change_parameters(kp=30)` the local pid
object carries `kp = 30`, `kd = 10` as ad-hoc attributes; the server then
echoes a pid dict containing `{setpoint: 0.0, kp: 30, kd: 10, ki: 0}`.  The
reply handling completes without an exception and replaces the pid
wholesale with `Pid(**updated_pid)` — but `Pid.__init__` drops `kp`, `kd`
and `ki` (they are not in its `valid_attributes`), so the new local Pid has
no gain attributes at all, instead of reflecting the echoed triple. -/
theorem c4_change_parameters_echo_dropped :
    List.lookup "kp"
        (PidController.change_parameters
          (PidController.change_parameters
            (Pid.init (PyVal.float 0) (PyVal.int 1000) [])
            Option.none Option.none (some (PyVal.float 10)) Option.none)
          (some (PyVal.float 30)) Option.none Option.none Option.none)
        = some (PyVal.float 30)
      ∧ List.lookup "kd"
        (PidController.change_parameters
          (PidController.change_parameters
            (Pid.init (PyVal.float 0) (PyVal.int 1000) [])
            Option.none Option.none (some (PyVal.float 10)) Option.none)
          (some (PyVal.float 30)) Option.none Option.none Option.none)
        = some (PyVal.float 10)
      ∧ (PidController.handle_update_reply
          (PidController.change_parameters
            (PidController.change_parameters
              (Pid.init (PyVal.float 0) (PyVal.int 1000) [])
              Option.none Option.none (some (PyVal.float 10)) Option.none)
            (some (PyVal.float 30)) Option.none Option.none Option.none)
          1
          (TransportReply.decoded (.dict [("controllers", .dict [("1",
            .dict [("pid", .dict [("setpoint", .float 0), ("kp", .float 30),
              ("kd", .float 10), ("ki", .float 0)])])])]))).exc
        = Option.none
      ∧ List.lookup "kp"
        (PidController.handle_update_reply
          (PidController.change_parameters
            (PidController.change_parameters
              (Pid.init (PyVal.float 0) (PyVal.int 1000) [])
              Option.none Option.none (some (PyVal.float 10)) Option.none)
            (some (PyVal.float 30)) Option.none Option.none Option.none)
          1
          (TransportReply.decoded (.dict [("controllers", .dict [("1",
            .dict [("pid", .dict [("setpoint", .float 0), ("kp", .float 30),
              ("kd", .float 10), ("ki", .float 0)])])])]))).pid
        = Option.none
      ∧ List.lookup "kd"
        (PidController.handle_update_reply
          (PidController.change_parameters
            (PidController.change_parameters
              (Pid.init (PyVal.float 0) (PyVal.int 1000) [])
              Option.none Option.none (some (PyVal.float 10)) Option.none)
            (some (PyVal.float 30)) Option.none Option.none Option.none)
          1
          (TransportReply.decoded (.dict [("controllers", .dict [("1",
            .dict [("pid", .dict [("setpoint", .float 0), ("kp", .float 30),
              ("kd", .float 10), ("ki", .float 0)])])])]))).pid
        = Option.none
      ∧ List.lookup "ki"
        (PidController.handle_update_reply
          (PidController.change_parameters
            (PidController.change_parameters
              (Pid.init (PyVal.float 0) (PyVal.int 1000) [])
              Option.none Option.none (some (PyVal.float 10)) Option.none)
            (some (PyVal.float 30)) Option.none Option.none Option.none)
          1
          (TransportReply.decoded (.dict [("controllers", .dict [("1",
            .dict [("pid", .dict [("setpoint", .float 0), ("kp", .float 30),
              ("kd", .float 10), ("ki", .float 0)])])])]))).pid
        = Option.none := by
  exact ⟨rfl, rfl, rfl, rfl, rfl, rfl⟩
